import Mathlib

/-!
Verification development for the authentication and authorization core of the
HR record-management API (src/app/auth.py and src/app/main.py).

The embedding is shallow: each Python function of the auth core becomes a Lean
function over explicit inputs.  Module-level configuration read from the
environment at import time (SECRET_KEY, ALGORITHM, ACCESS_TOKEN_EXPIRE_MINUTES,
PASSWORD_SALT) is modelled by loadConfig applied to an association list of
environment variables.  The wall clock is an explicit natural-number parameter
(seconds).  JWT strings are modelled by an inductive Token that records exactly
what a decoder can observe: either the string is not a validly signed compact
JWT, or it is a payload signed under some secret and algorithm.  hashlib.sha256
is modelled by a full executable SHA-256 over the UTF-8 bytes of the input.
HTTPException carries the status code, detail string and headers exactly as
constructed in the source.
-/

set_option maxRecDepth 100000

namespace HRAuth

/-! ## SHA-256 (model of hashlib.sha256(...).hexdigest()) -/

/-- Reduce a natural number to a 32-bit word. -/
def w32 (n : Nat) : Nat := n % 4294967296

/-- Right rotation of a 32-bit word. -/
def rotr32 (n x : Nat) : Nat := w32 ((x >>> n) ||| (x <<< (32 - n)))

/-- Choice function of the SHA-256 round. -/
def shaCh (x y z : Nat) : Nat := (x &&& y) ^^^ ((x ^^^ 4294967295) &&& z)

/-- Majority function of the SHA-256 round. -/
def shaMaj (x y z : Nat) : Nat := (x &&& y) ^^^ (x &&& z) ^^^ (y &&& z)

/-- Upper-case sigma-0 of SHA-256. -/
def bigSigma0 (x : Nat) : Nat := rotr32 2 x ^^^ rotr32 13 x ^^^ rotr32 22 x

/-- Upper-case sigma-1 of SHA-256. -/
def bigSigma1 (x : Nat) : Nat := rotr32 6 x ^^^ rotr32 11 x ^^^ rotr32 25 x

/-- Lower-case sigma-0 of SHA-256. -/
def smallSigma0 (x : Nat) : Nat := rotr32 7 x ^^^ rotr32 18 x ^^^ (x >>> 3)

/-- Lower-case sigma-1 of SHA-256. -/
def smallSigma1 (x : Nat) : Nat := rotr32 17 x ^^^ rotr32 19 x ^^^ (x >>> 10)

/-- The 64 SHA-256 round constants, written in decimal. -/
def sha256K : Array Nat := #[
  1116352408, 1899447441, 3049323471, 3921009573, 961987163,
  1508970993, 2453635748, 2870763221, 3624381080, 310598401,
  607225278, 1426881987, 1925078388, 2162078206, 2614888103,
  3248222580, 3835390401, 4022224774, 264347078, 604807628,
  770255983, 1249150122, 1555081692, 1996064986, 2554220882,
  2821834349, 2952996808, 3210313671, 3336571891, 3584528711,
  113926993, 338241895, 666307205, 773529912, 1294757372,
  1396182291, 1695183700, 1986661051, 2177026350, 2456956037,
  2730485921, 2820302411, 3259730800, 3345764771, 3516065817,
  3600352804, 4094571909, 275423344, 430227734, 506948616,
  659060556, 883997877, 958139571, 1322822218, 1537002063,
  1747873779, 1955562222, 2024104815, 2227730452, 2361852424,
  2428436474, 2756734187, 3204031479, 3329325298]

/-- The SHA-256 initial hash state, written in decimal. -/
def sha256H0 : Array Nat := #[
  1779033703, 3144134277, 1013904242, 2773480762, 1359893119,
  2600822924, 528734635, 1541459225]

/-- UTF-8 encoding of a single character, as byte values. -/
def utf8EncodeCharNat (c : Char) : List Nat :=
  let n := c.toNat
  if n < 128 then [n]
  else if n < 2048 then [192 + n / 64, 128 + n % 64]
  else if n < 65536 then [224 + n / 4096, 128 + (n / 64) % 64, 128 + n % 64]
  else [240 + n / 262144, 128 + (n / 4096) % 64, 128 + (n / 64) % 64, 128 + n % 64]

/-- The UTF-8 bytes of a string (Python str.encode). -/
def strBytes (s : String) : List Nat := (s.data.map utf8EncodeCharNat).flatten

/-- SHA-256 padding: append the byte 0x80, zero bytes until the length is
56 mod 64, then the 64-bit big-endian bit length of the message. -/
def sha256Pad (msg : List Nat) : List Nat :=
  let L := msg.length
  let k := (119 - (L % 64)) % 64
  let bitLen := 8 * L
  msg ++ [128] ++ List.replicate k 0 ++
    ((List.range 8).map (fun i => (bitLen >>> (8 * (7 - i))) % 256))

/-- Big-endian 32-bit words from a byte list. -/
def bytesToWords : List Nat → List Nat
  | b0 :: b1 :: b2 :: b3 :: rest =>
      (b0 * 16777216 + b1 * 65536 + b2 * 256 + b3) :: bytesToWords rest
  | _ => []

/-- Extend the 16 message words towards 64 via the message schedule. -/
def extendW : Nat → Array Nat → Array Nat
  | 0, ws => ws
  | n + 1, ws =>
      let t := ws.size
      extendW n (ws.push (w32 (smallSigma1 (ws.getD (t - 2) 0) + ws.getD (t - 7) 0 +
        smallSigma0 (ws.getD (t - 15) 0) + ws.getD (t - 16) 0)))

/-- Working state of the SHA-256 compression loop. -/
structure ShaState where
  a : Nat
  b : Nat
  c : Nat
  d : Nat
  e : Nat
  f : Nat
  g : Nat
  h : Nat

/-- One SHA-256 round. -/
def shaRound (k w : Nat) (s : ShaState) : ShaState :=
  let t1 := w32 (s.h + bigSigma1 s.e + shaCh s.e s.f s.g + k + w)
  let t2 := w32 (bigSigma0 s.a + shaMaj s.a s.b s.c)
  ⟨w32 (t1 + t2), s.a, s.b, s.c, w32 (s.d + t1), s.e, s.f, s.g⟩

/-- SHA-256 compression of one 64-byte block into the hash state. -/
def sha256Compress (state : Array Nat) (block : List Nat) : Array Nat :=
  let ws := extendW 48 (bytesToWords block).toArray
  let s0 : ShaState := ⟨state.getD 0 0, state.getD 1 0, state.getD 2 0, state.getD 3 0,
    state.getD 4 0, state.getD 5 0, state.getD 6 0, state.getD 7 0⟩
  let sf := (List.range 64).foldl (fun s t => shaRound (sha256K.getD t 0) (ws.getD t 0) s) s0
  #[w32 (state.getD 0 0 + sf.a), w32 (state.getD 1 0 + sf.b), w32 (state.getD 2 0 + sf.c),
    w32 (state.getD 3 0 + sf.d), w32 (state.getD 4 0 + sf.e), w32 (state.getD 5 0 + sf.f),
    w32 (state.getD 6 0 + sf.g), w32 (state.getD 7 0 + sf.h)]

/-- Process the padded message 64-byte block by 64-byte block. -/
def sha256Iter : Nat → Array Nat → List Nat → Array Nat
  | 0, state, _ => state
  | n + 1, state, bytes => sha256Iter n (sha256Compress state (bytes.take 64)) (bytes.drop 64)

/-- SHA-256 digest of a byte list, as eight 32-bit words. -/
def sha256Words (msg : List Nat) : Array Nat :=
  let padded := sha256Pad msg
  sha256Iter (padded.length / 64) sha256H0 padded

/-- Lower-case hex digit for a value below 16. -/
def hexDigit (n : Nat) : Char := if n < 10 then Char.ofNat (48 + n) else Char.ofNat (87 + n)

/-- Eight-digit lower-case hex rendering of a 32-bit word. -/
def wordHex (n : Nat) : String :=
  String.mk ((List.range 8).map (fun i => hexDigit ((n >>> (4 * (7 - i))) % 16)))

/-- Lower-case hex digest of the UTF-8 bytes of a string, which is the value of
hashlib.sha256(s.encode()).hexdigest() in the source. -/
def sha256Hex (s : String) : String :=
  String.join ((sha256Words (strBytes s)).toList.map wordHex)

/-! ## Configuration (module-level os.getenv reads in auth.py and main.py) -/

/-- Model of os.getenv with a default: look the key up in the environment,
falling back to the given default value. -/
def getenv (env : List (String × String)) (key deflt : String) : String :=
  (env.lookup key).getD deflt

/-- The module-level configuration constants of app.auth, read once at import
time: SECRET_KEY, ALGORITHM, ACCESS_TOKEN_EXPIRE_MINUTES and PASSWORD_SALT. -/
structure Config where
  secretKey : String
  algorithm : String
  accessTokenExpireMinutes : Nat
  passwordSalt : String
deriving DecidableEq

/-- Loading of the module-level constants from the environment, exactly as the
os.getenv calls at the top of src/app/auth.py (and the duplicate reads in
src/app/main.py).  Every key has a hardcoded fallback, so loading is total.
The int() conversion of ACCESS_TOKEN_EXPIRE_MINUTES is modelled by toNat on
the looked-up string; its failure on non-numeric input is not exercised by any
claim. -/
def loadConfig (env : List (String × String)) : Config :=
  { secretKey := getenv env "SECRET_KEY" "your-secret-key-change-in-production"
    algorithm := getenv env "ALGORITHM" "HS256"
    accessTokenExpireMinutes := (((env.lookup "ACCESS_TOKEN_EXPIRE_MINUTES").bind
      String.toNat?).getD 30)
    passwordSalt := getenv env "PASSWORD_SALT" "hr_system_salt_2024" }

/-! ## Credential hasher (src/app/auth.py lines 18 to 25) -/

/-- Model of app.auth.get_password_hash: SHA-256 hex digest of the password
concatenated with the module-level PASSWORD_SALT. -/
def get_password_hash (password : String) (cfg : Config) : String :=
  sha256Hex (password ++ cfg.passwordSalt)

/-- Model of secrets.compare_digest on hex digest strings: equality (the
constant-time execution property of the comparison is a timing property with
no observable counterpart in the embedding). -/
def compare_digest (a b : String) : Bool := a == b

/-- Model of app.auth.verify_password: rehash the candidate and compare the
digests. -/
def verify_password (plain_password hashed_password : String) (cfg : Config) : Bool :=
  compare_digest (get_password_hash plain_password cfg) hashed_password

/-! ## JWT (the jwt.encode / jwt.decode calls of auth.py and main.py) -/

/-- The JWT claims dictionary as the source uses it: an optional subject and
an optional expiry instant in seconds. -/
structure Payload where
  sub : Option String := none
  exp : Option Nat := none
deriving DecidableEq

/-- Model of a JWT string as what a decoder can observe of it: either the
string is not a validly signed compact JWT at all (malformed structure or a
signature matching no key), or it is a payload correctly signed under a
specific secret and algorithm.  The unforgeability assumption of HMAC is
expressed by the constructors: a signed token carries the secret that was
used to produce it. -/
inductive Token where
  | malformed (raw : String)
  | signed (payload : Payload) (secret : String) (alg : String)
deriving DecidableEq

/-- The two decode failures of PyJWT that the source distinguishes:
jwt.ExpiredSignatureError is a subclass of jwt.InvalidTokenError, and the
except clauses of the source list the expired case first, so the two are
disjoint outcomes here. -/
inductive JwtError where
  | expiredSignatureError
  | invalidTokenError
deriving DecidableEq

/-- Model of jwt.encode: sign the payload under the secret and algorithm. -/
def jwt_encode (payload : Payload) (secret : String) (alg : String) : Token :=
  .signed payload secret alg

/-- Model of jwt.decode(token, secret, algorithms=algs) at clock instant now:
reject anything that is not validly signed under the given secret with an
allowed algorithm, then reject an expiry instant strictly in the past, then
return the payload.  An absent exp claim skips the expiry check, as PyJWT
does by default. -/
def jwt_decode (t : Token) (secret : String) (algs : List String) (now : Nat) :
    Except JwtError Payload :=
  match t with
  | .malformed _ => .error .invalidTokenError
  | .signed p s a =>
      if s = secret ∧ a ∈ algs then
        match p.exp with
        | some e => if e < now then .error .expiredSignatureError else .ok p
        | none => .ok p
      else .error .invalidTokenError

/-- The expiry claim of a token, when it has one. -/
def Token.expOf : Token → Option Nat
  | .malformed _ => none
  | .signed p _ _ => p.exp

/-- The secret a token is signed under, when it is validly signed. -/
def Token.secretOf : Token → Option String
  | .malformed _ => none
  | .signed _ s _ => some s

/-- The subject claim of a token, when it has one. -/
def Token.subOf : Token → Option String
  | .malformed _ => none
  | .signed p _ _ => p.sub

/-! ## Token issuer and verifier (src/app/auth.py lines 27 to 56) -/

/-- Model of app.auth.create_access_token: copy the claims, set exp to the
current instant plus the requested delta (in seconds), falling back to
ACCESS_TOKEN_EXPIRE_MINUTES minutes, and sign under the module secret.
The source guards the delta with a truthiness test, not a None test: a
zero timedelta is falsy in Python, so a zero delta also takes the default
ACCESS_TOKEN_EXPIRE_MINUTES branch. -/
def create_access_token (data : Payload) (expires_delta : Option Nat) (now : Nat)
    (cfg : Config) : Token :=
  let expire := match expires_delta with
    | some d => if 0 < d then now + d else now + cfg.accessTokenExpireMinutes * 60
    | none => now + cfg.accessTokenExpireMinutes * 60
  jwt_encode { data with exp := some expire } cfg.secretKey cfg.algorithm

/-- The schemas.TokenData pydantic model: an optional username. -/
structure TokenData where
  username : Option String := none
deriving DecidableEq

/-- Model of fastapi.HTTPException as raised by the source: status code,
detail string, and optional headers. -/
structure HTTPException where
  statusCode : Nat
  detail : String
  headers : Option (List (String × String)) := none
deriving DecidableEq

/-- The credentials_exception of auth.verify_token and main.get_current_user:
401 with detail Could not validate credentials and a WWW-Authenticate header. -/
def credentials_exception : HTTPException :=
  { statusCode := 401, detail := "Could not validate credentials",
    headers := some [("WWW-Authenticate", "Bearer")] }

/-- The exception raised on jwt.ExpiredSignatureError: 401 with detail
Token has expired and no headers. -/
def token_expired_exception : HTTPException :=
  { statusCode := 401, detail := "Token has expired" }

/-- The exception raised by main.get_current_user when no bearer credential is
presented: 401 with detail Not authenticated and a WWW-Authenticate header. -/
def not_authenticated_exception : HTTPException :=
  { statusCode := 401, detail := "Not authenticated",
    headers := some [("WWW-Authenticate", "Bearer")] }

/-- The exception raised by main.get_current_user when the subject matches no
stored user: 401 with detail User not found. -/
def user_not_found_exception : HTTPException :=
  { statusCode := 401, detail := "User not found" }

/-- The exception raised on an inactive account: 400 with detail Inactive
user. -/
def inactive_user_exception : HTTPException :=
  { statusCode := 400, detail := "Inactive user" }

/-- The exception raised by main.get_current_hr_user on a non-HR account:
403 with detail HR privileges required. -/
def hr_required_exception : HTTPException :=
  { statusCode := 403, detail := "HR privileges required" }

/-- The exception raised by main.login on an unknown username or a failed
password check: 401 with detail Incorrect username or password. -/
def incorrect_credentials_exception : HTTPException :=
  { statusCode := 401, detail := "Incorrect username or password",
    headers := some [("WWW-Authenticate", "Bearer")] }

/-- Model of app.auth.verify_token: decode under the module secret and the
singleton algorithm list; on ExpiredSignatureError report the expired
exception, on any other InvalidTokenError report the credentials exception;
a decoded payload without a sub claim also reports the credentials
exception; otherwise return TokenData with the subject. -/
def verify_token (token : Token) (now : Nat) (cfg : Config) :
    Except HTTPException TokenData :=
  match jwt_decode token cfg.secretKey [cfg.algorithm] now with
  | .error .expiredSignatureError => .error token_expired_exception
  | .error .invalidTokenError => .error credentials_exception
  | .ok payload =>
      match payload.sub with
      | none => .error credentials_exception
      | some username => .ok { username := some username }

/-! ## Account store rows (src/app/models.py User) and request schemas -/

/-- The users table row of src/app/models.py. -/
structure User where
  id : Nat
  email : String
  username : String
  hashed_password : String
  full_name : Option String := none
  is_active : Bool := true
  is_hr : Bool := false
  created_at : Nat := 0
deriving DecidableEq

/-- The schemas.UserLogin request body. -/
structure UserLogin where
  username : String
  password : String
deriving DecidableEq

/-- The schemas.Token response body of the login endpoint. -/
structure TokenSchema where
  access_token : Token
  token_type : String
deriving DecidableEq

/-! ## Access guard and login endpoint (src/app/main.py lines 60 to 193) -/

/-- Model of main.get_current_user.  The bearer credential is an optional
token (HTTPBearer with auto_error False yields None when the header is
absent).  The account store is a list of users; the select by username
followed by scalar_one_or_none is the first user with a matching username
(the username column is unique). -/
def get_current_user (credentials : Option Token) (db : List User) (now : Nat)
    (cfg : Config) : Except HTTPException User :=
  match credentials with
  | none => .error not_authenticated_exception
  | some token =>
      match jwt_decode token cfg.secretKey [cfg.algorithm] now with
      | .error .expiredSignatureError => .error token_expired_exception
      | .error .invalidTokenError => .error credentials_exception
      | .ok payload =>
          match payload.sub with
          | none => .error credentials_exception
          | some username =>
              match db.find? (fun u => u.username == username) with
              | none => .error user_not_found_exception
              | some user =>
                  if user.is_active = false then .error inactive_user_exception
                  else .ok user

/-- Model of main.get_current_hr_user: resolve the current user first, then
require the is_hr flag. -/
def get_current_hr_user (credentials : Option Token) (db : List User) (now : Nat)
    (cfg : Config) : Except HTTPException User :=
  match get_current_user credentials db now cfg with
  | .error e => .error e
  | .ok current_user =>
      if current_user.is_hr = false then .error hr_required_exception
      else .ok current_user

/-- Model of main.login: look the username up; an unknown user or a failed
password check is a 401; an inactive user is a 400; otherwise issue a token
for the username with a fixed 30-minute lifetime. -/
def login (form_data : UserLogin) (db : List User) (now : Nat) (cfg : Config) :
    Except HTTPException TokenSchema :=
  match db.find? (fun u => u.username == form_data.username) with
  | none => .error incorrect_credentials_exception
  | some user =>
      if verify_password form_data.password user.hashed_password cfg = false then
        .error incorrect_credentials_exception
      else if user.is_active = false then
        .error inactive_user_exception
      else
        .ok { access_token := create_access_token { sub := some user.username }
                (some (30 * 60)) now cfg,
              token_type := "bearer" }

/-! ## Shared concrete instances for witnesses -/

/-- The configuration obtained from an empty environment: every constant takes
its hardcoded fallback. -/
def cfg0 : Config := loadConfig []

/-- Digest of the password password123 under the empty-environment salt. -/
def alice_pw_hash : String := get_password_hash "password123" cfg0

/-- An active non-HR account. -/
def user_alice : User :=
  { id := 1, email := "alice@example.com", username := "alice",
    hashed_password := alice_pw_hash, full_name := some "Alice",
    is_active := true, is_hr := false, created_at := 0 }

/-- The same account with the active flag cleared. -/
def user_alice_inactive : User :=
  { id := 1, email := "alice@example.com", username := "alice",
    hashed_password := alice_pw_hash, full_name := some "Alice",
    is_active := false, is_hr := false, created_at := 0 }

/-- Rehashing the plaintext always verifies against its own digest, because
verify_password compares the recomputed digest with the stored one. -/
theorem verify_password_self (p : String) (cfg : Config) :
    verify_password p (get_password_hash p cfg) cfg = true := by
  simp [verify_password, compare_digest]

/-! ## Claims -/

/-- C1, counterexample: with SECRET_KEY unset (empty environment), loading
succeeds and token issuance silently signs with the hardcoded fallback value,
and verification accepts such a token under the same fallback secret — so a
missing secret is not a fatal configuration error. -/
theorem C1_counterexample :
    (create_access_token { sub := some "alice" } none 0 (loadConfig [])).secretOf =
      some "your-secret-key-change-in-production" ∧
    verify_token (create_access_token { sub := some "alice" } none 0 (loadConfig [])) 0
      (loadConfig []) = .ok { username := some "alice" } := by
  constructor <;> rfl

/-- C1 (amended): when the SECRET_KEY environment variable is unset, loading
the auth module does not fail; it silently falls back to the hardcoded default
secret, and every issued token is signed with that default. -/
theorem C1_fallback_secret_when_unset (env : List (String × String)) (data : Payload)
    (expires_delta : Option Nat) (now : Nat) (h : env.lookup "SECRET_KEY" = none) :
    (loadConfig env).secretKey = "your-secret-key-change-in-production" ∧
    (create_access_token data expires_delta now (loadConfig env)).secretOf =
      some "your-secret-key-change-in-production" := by
  have hs : (loadConfig env).secretKey = "your-secret-key-change-in-production" := by
    simp [loadConfig, getenv, h]
  refine ⟨hs, ?_⟩
  cases expires_delta <;>
    simp [create_access_token, jwt_encode, Token.secretOf, hs]

/-- Witness for C1 (amended) at the empty environment. -/
theorem C1_fallback_secret_when_unset_witness :
    (loadConfig []).secretKey = "your-secret-key-change-in-production" ∧
    (create_access_token { sub := some "alice" } none 0 (loadConfig [])).secretOf =
      some "your-secret-key-change-in-production" :=
  C1_fallback_secret_when_unset [] { sub := some "alice" } none 0 rfl

/-- C2, counterexample: the hasher used by registration and login is
deterministic — two calls on the same secret return the same digest, never
distinct ones — and the digest is a pure function of the password concatenated
with the single global static salt hr_system_salt_2024, so there is no
per-account random salt. -/
theorem C2_counterexample :
    get_password_hash "password123" cfg0 = get_password_hash "password123" cfg0 ∧
    get_password_hash "password123" cfg0 =
      sha256Hex ("password123" ++ "hr_system_salt_2024") :=
  ⟨rfl, rfl⟩

/-- C2 (amended): the credential hasher used by registration and login is a
deterministic SHA-256 of the password concatenated with a single global static
salt from the module configuration (hr_system_salt_2024 by default); repeated
calls on the same secret produce equal digests, and the digest verifies
against the plaintext. -/
theorem C2_static_salt_hash (S : String) (cfg : Config) :
    get_password_hash S cfg = sha256Hex (S ++ cfg.passwordSalt) ∧
    cfg0.passwordSalt = "hr_system_salt_2024" ∧
    verify_password S (get_password_hash S cfg) cfg = true :=
  ⟨rfl, rfl, verify_password_self S cfg⟩

/-- C4: the token verifier realises the four-case state machine — malformed or
wrongly signed tokens give the invalid-token error, a validly signed token
with an elapsed expiry gives the expired error, a validly signed unexpired
token without a subject gives the invalid-token error, and a validly signed
unexpired token with a subject succeeds with exactly that subject; the expired
and invalid errors are distinct values. -/
theorem C4_verify_token_state_machine (now : Nat) (cfg : Config) :
    (∀ raw, verify_token (.malformed raw) now cfg = .error credentials_exception) ∧
    (∀ p s a, s ≠ cfg.secretKey ∨ a ≠ cfg.algorithm →
      verify_token (.signed p s a) now cfg = .error credentials_exception) ∧
    (∀ p e, p.exp = some e → e < now →
      verify_token (.signed p cfg.secretKey cfg.algorithm) now cfg =
        .error token_expired_exception) ∧
    (∀ p e, p.exp = some e → ¬ e < now → p.sub = none →
      verify_token (.signed p cfg.secretKey cfg.algorithm) now cfg =
        .error credentials_exception) ∧
    (∀ p e h, p.exp = some e → ¬ e < now → p.sub = some h →
      verify_token (.signed p cfg.secretKey cfg.algorithm) now cfg =
        .ok { username := some h }) ∧
    token_expired_exception ≠ credentials_exception := by
  refine ⟨fun raw => rfl, ?_, ?_, ?_, ?_, by decide⟩
  · intro p s a h
    rcases h with h | h <;> simp [verify_token, jwt_decode, h]
  · intro p e he hlt
    simp [verify_token, jwt_decode, he, hlt]
  · intro p e he hlt hs
    simp [verify_token, jwt_decode, he, hlt, hs]
  · intro p e h he hlt hs
    simp [verify_token, jwt_decode, he, hlt, hs]

/-- Witness for C4: each of the four decode outcomes at concrete inputs. -/
theorem C4_witness :
    verify_token (.malformed "zzz") 0 cfg0 = .error credentials_exception ∧
    verify_token (.signed { sub := some "alice", exp := some 50 } "wrong-secret"
      cfg0.algorithm) 10 cfg0 = .error credentials_exception ∧
    verify_token (.signed { sub := some "alice", exp := some 5 } cfg0.secretKey
      cfg0.algorithm) 10 cfg0 = .error token_expired_exception ∧
    verify_token (.signed { sub := none, exp := some 50 } cfg0.secretKey
      cfg0.algorithm) 10 cfg0 = .error credentials_exception ∧
    verify_token (.signed { sub := some "alice", exp := some 50 } cfg0.secretKey
      cfg0.algorithm) 10 cfg0 = .ok { username := some "alice" } :=
  ⟨(C4_verify_token_state_machine 0 cfg0).1 "zzz",
   (C4_verify_token_state_machine 10 cfg0).2.1 _ _ _ (Or.inl (by decide)),
   (C4_verify_token_state_machine 10 cfg0).2.2.1 _ 5 rfl (by decide),
   (C4_verify_token_state_machine 10 cfg0).2.2.2.1 _ 50 rfl (by decide) rfl,
   (C4_verify_token_state_machine 10 cfg0).2.2.2.2.1 _ 50 "alice" rfl (by decide) rfl⟩

/-- C5, counterexample: a token issued with ttl zero does not fail as expired
at the next instant — the zero delta is falsy in the source, so the token gets
the default 30-minute lifetime of the empty-environment configuration, and
verification 10 seconds after issuance succeeds and returns the subject. -/
theorem C5_counterexample :
    verify_token (create_access_token { sub := some "alice" } (some 0) 0 cfg0) 10 cfg0 =
      .ok { username := some "alice" } ∧
    (create_access_token { sub := some "alice" } (some 0) 0 cfg0).expOf = some 1800 := by
  constructor <;> rfl

/-- C5 (amended): a well-formed, validly signed token whose expiry is strictly
in the past fails verification with the expired-token error and never with the
invalid-token error; a token issued with ttl zero, however, receives the
default ACCESS_TOKEN_EXPIRE_MINUTES lifetime, because a zero delta is falsy in
the source, and it fails as expired only once that default lifetime has
elapsed. -/
theorem C5_elapsed_expiry_reports_expired (p : Payload) (e now tIssue : Nat) (H : String)
    (cfg : Config) (hexp : p.exp = some e) (helapsed : e < now)
    (hIssue : tIssue + cfg.accessTokenExpireMinutes * 60 < now) :
    verify_token (.signed p cfg.secretKey cfg.algorithm) now cfg =
      .error token_expired_exception ∧
    (create_access_token { sub := some H } (some 0) tIssue cfg).expOf =
      some (tIssue + cfg.accessTokenExpireMinutes * 60) ∧
    verify_token (create_access_token { sub := some H } (some 0) tIssue cfg) now cfg =
      .error token_expired_exception ∧
    token_expired_exception ≠ credentials_exception := by
  refine ⟨?_, ?_, ?_, by decide⟩
  · simp [verify_token, jwt_decode, hexp, helapsed]
  · simp [create_access_token, jwt_encode, Token.expOf]
  · simp [create_access_token, jwt_encode, verify_token, jwt_decode, hIssue]

/-- Witness for C5: an expired token, and a ttl-zero token verified after the
default lifetime has elapsed, both reported as expired. -/
theorem C5_witness :
    verify_token (.signed { sub := some "alice", exp := some 5 } cfg0.secretKey
      cfg0.algorithm) 1900 cfg0 = .error token_expired_exception ∧
    (create_access_token { sub := some "bob" } (some 0) 3 cfg0).expOf =
      some (3 + cfg0.accessTokenExpireMinutes * 60) ∧
    verify_token (create_access_token { sub := some "bob" } (some 0) 3 cfg0) 1900 cfg0 =
      .error token_expired_exception ∧
    token_expired_exception ≠ credentials_exception :=
  C5_elapsed_expiry_reports_expired { sub := some "alice", exp := some 5 } 5 1900 3 "bob"
    cfg0 rfl (by decide) (by decide)

/-- C6: for every subject and every positive ttl, verifying the freshly issued
token at the issuing instant under the same configuration succeeds and returns
the subject. -/
theorem C6_issue_verify_round_trip (H : String) (T now : Nat) (cfg : Config)
    (hT : 0 < T) :
    verify_token (create_access_token { sub := some H } (some T) now cfg) now cfg =
      .ok { username := some H } := by
  have hnotlt : ¬ now + T < now := by omega
  simp [create_access_token, jwt_encode, verify_token, jwt_decode, hT, hnotlt]

/-- Witness for C6 at subject alice with a 30-minute ttl. -/
theorem C6_witness :
    verify_token (create_access_token { sub := some "alice" } (some 1800) 0 cfg0) 0 cfg0 =
      .ok { username := some "alice" } :=
  C6_issue_verify_round_trip "alice" 1800 0 cfg0 (by decide)

/-- C7: verifying a secret against its own digest succeeds; verifying a secret
against the digest of a different secret fails whenever the two digests differ
(which is the overwhelming-probability collision-freedom reading for SHA-256,
made explicit as a hypothesis). -/
theorem C7_hash_verify_round_trip (cfg : Config) (S S1 S2 : String)
    (hne : get_password_hash S1 cfg ≠ get_password_hash S2 cfg) :
    verify_password S (get_password_hash S cfg) cfg = true ∧
    verify_password S1 (get_password_hash S2 cfg) cfg = false := by
  refine ⟨verify_password_self S cfg, ?_⟩
  simp [verify_password, compare_digest, hne]

/-- Witness for C7: concrete digests, with the inequality of the digests of a
and b under the default salt checked by evaluation of SHA-256. -/
theorem C7_witness :
    verify_password "password123" (get_password_hash "password123" cfg0) cfg0 = true ∧
    verify_password "a" (get_password_hash "b" cfg0) cfg0 = false :=
  C7_hash_verify_round_trip cfg0 "password123" "a" "b" (by decide)

/-- C3: the access guard checks its failure points in order — no bearer
credential gives the not-authenticated error; a bearer value on which decoding
fails propagates the expired or invalid error; a decoded payload without a
subject gives the invalid error; a subject matching no stored user gives the
user-not-found error; a matching inactive user gives the inactive error; and
otherwise the guard returns the resolved user. -/
theorem C3_authenticate_failure_order (db : List User) (now : Nat) (cfg : Config) :
    (get_current_user none db now cfg = .error not_authenticated_exception) ∧
    (∀ t, jwt_decode t cfg.secretKey [cfg.algorithm] now = .error .expiredSignatureError →
      get_current_user (some t) db now cfg = .error token_expired_exception) ∧
    (∀ t, jwt_decode t cfg.secretKey [cfg.algorithm] now = .error .invalidTokenError →
      get_current_user (some t) db now cfg = .error credentials_exception) ∧
    (∀ t p, jwt_decode t cfg.secretKey [cfg.algorithm] now = .ok p → p.sub = none →
      get_current_user (some t) db now cfg = .error credentials_exception) ∧
    (∀ t p H, jwt_decode t cfg.secretKey [cfg.algorithm] now = .ok p → p.sub = some H →
      db.find? (fun u => u.username == H) = none →
      get_current_user (some t) db now cfg = .error user_not_found_exception) ∧
    (∀ t p H u, jwt_decode t cfg.secretKey [cfg.algorithm] now = .ok p → p.sub = some H →
      db.find? (fun u => u.username == H) = some u → u.is_active = false →
      get_current_user (some t) db now cfg = .error inactive_user_exception) ∧
    (∀ t p H u, jwt_decode t cfg.secretKey [cfg.algorithm] now = .ok p → p.sub = some H →
      db.find? (fun u => u.username == H) = some u → u.is_active = true →
      get_current_user (some t) db now cfg = .ok u) := by
  refine ⟨rfl, ?_, ?_, ?_, ?_, ?_, ?_⟩
  · intro t hd
    simp [get_current_user, hd]
  · intro t hd
    simp [get_current_user, hd]
  · intro t p hd hs
    simp [get_current_user, hd, hs]
  · intro t p H hd hs hf
    simp [get_current_user, hd, hs, hf]
  · intro t p H u hd hs hf ha
    simp [get_current_user, hd, hs, hf, ha]
  · intro t p H u hd hs hf ha
    simp [get_current_user, hd, hs, hf, ha]

/-- Witness for C3: the guard at concrete inputs — a missing credential, a
malformed token, an unknown subject, an inactive account, and an active
account. -/
theorem C3_witness :
    get_current_user none [] 0 cfg0 = .error not_authenticated_exception ∧
    get_current_user (some (.malformed "zzz")) [] 0 cfg0 = .error credentials_exception ∧
    get_current_user (some (.signed { sub := some "alice", exp := some 100 }
      cfg0.secretKey cfg0.algorithm)) [] 0 cfg0 = .error user_not_found_exception ∧
    get_current_user (some (.signed { sub := some "alice", exp := some 100 }
      cfg0.secretKey cfg0.algorithm)) [user_alice_inactive] 0 cfg0 =
      .error inactive_user_exception ∧
    get_current_user (some (.signed { sub := some "alice", exp := some 100 }
      cfg0.secretKey cfg0.algorithm)) [user_alice] 0 cfg0 = .ok user_alice :=
  ⟨(C3_authenticate_failure_order [] 0 cfg0).1,
   (C3_authenticate_failure_order [] 0 cfg0).2.2.1 _ rfl,
   (C3_authenticate_failure_order [] 0 cfg0).2.2.2.2.1 _ _ "alice" rfl rfl rfl,
   (C3_authenticate_failure_order [user_alice_inactive] 0 cfg0).2.2.2.2.2.1 _ _ "alice"
     user_alice_inactive rfl rfl rfl rfl,
   (C3_authenticate_failure_order [user_alice] 0 cfg0).2.2.2.2.2.2 _ _ "alice"
     user_alice rfl rfl rfl rfl⟩

/-- C8: the role check runs strictly after identity resolution — every failure
of the identity resolution propagates unchanged through the privileged guard,
the role check is applied only to successfully resolved users, a resolved user
is always active, and in particular a valid token for an inactive account is
rejected with the inactive error before the role flag is ever consulted. -/
theorem C8_role_check_after_identity (credentials : Option Token) (db : List User)
    (now : Nat) (cfg : Config) :
    (∀ e, get_current_user credentials db now cfg = .error e →
      get_current_hr_user credentials db now cfg = .error e) ∧
    (∀ u, get_current_user credentials db now cfg = .ok u →
      get_current_hr_user credentials db now cfg =
        if u.is_hr = false then .error hr_required_exception else .ok u) ∧
    (∀ u, get_current_user credentials db now cfg = .ok u → u.is_active = true) ∧
    (∀ t p H u, jwt_decode t cfg.secretKey [cfg.algorithm] now = .ok p → p.sub = some H →
      db.find? (fun v => v.username == H) = some u → u.is_active = false →
      get_current_hr_user (some t) db now cfg = .error inactive_user_exception) := by
  refine ⟨?_, ?_, ?_, ?_⟩
  · intro e h
    simp [get_current_hr_user, h]
  · intro u h
    simp [get_current_hr_user, h]
  · intro u h
    simp only [get_current_user] at h
    repeat' split at h
    all_goals simp_all
  · intro t p H u hd hs hf ha
    simp [get_current_hr_user, get_current_user, hd, hs, hf, ha]

/-- Witness for C8: a valid token for an inactive non-HR account is rejected
by the privileged guard with the inactive error, not the forbidden error. -/
theorem C8_witness :
    get_current_hr_user (some (.signed { sub := some "alice", exp := some 100 }
      cfg0.secretKey cfg0.algorithm)) [user_alice_inactive] 0 cfg0 =
      .error inactive_user_exception :=
  (C8_role_check_after_identity (some (.signed { sub := some "alice", exp := some 100 }
      cfg0.secretKey cfg0.algorithm)) [user_alice_inactive] 0 cfg0).2.2.2 _ _ "alice"
    user_alice_inactive rfl rfl rfl rfl

/-- C9: the login endpoint never issues a token for an inactive account — when
the username resolves to a stored user whose active flag is false, login with a
correctly verifying password fails with the inactive error, and no outcome of
login on that request is a token. -/
theorem C9_login_never_issues_for_inactive (form_data : UserLogin) (db : List User)
    (now : Nat) (cfg : Config) (user : User)
    (hfind : db.find? (fun u => u.username == form_data.username) = some user)
    (hinactive : user.is_active = false) :
    (verify_password form_data.password user.hashed_password cfg = true →
      login form_data db now cfg = .error inactive_user_exception) ∧
    (∀ resp, login form_data db now cfg ≠ .ok resp) := by
  constructor
  · intro hv
    simp [login, hfind, hv, hinactive]
  · intro resp h
    cases hv : verify_password form_data.password user.hashed_password cfg <;>
      simp [login, hfind, hv, hinactive] at h

/-- Witness for C9: login for the inactive alice account with the correct
password is rejected with the inactive error. -/
theorem C9_witness :
    login { username := "alice", password := "password123" } [user_alice_inactive] 0 cfg0 =
      .error inactive_user_exception :=
  (C9_login_never_issues_for_inactive { username := "alice", password := "password123" }
      [user_alice_inactive] 0 cfg0 user_alice_inactive (by simp [user_alice_inactive]) rfl).1
    (verify_password_self "password123" cfg0)

/-- C10: every token issued by a successful login expires exactly 30 minutes
after the signing instant, because login passes a fixed 30-minute lifetime to
the issuer; the configured default token lifetime has no effect on the outcome
of login. -/
theorem C10_login_fixed_30_minute_ttl (form_data : UserLogin) (db : List User)
    (now : Nat) (cfg : Config) :
    (∀ resp, login form_data db now cfg = .ok resp →
      resp.access_token.expOf = some (now + 30 * 60)) ∧
    (∀ m1 m2, login form_data db now { cfg with accessTokenExpireMinutes := m1 } =
      login form_data db now { cfg with accessTokenExpireMinutes := m2 }) := by
  constructor
  · intro resp h
    simp only [login] at h
    repeat' split at h
    all_goals first
      | exact Except.noConfusion h
      | (cases h; rfl)
  · intro m1 m2
    rfl

/-- Witness for C10: a concrete successful login at instant 0 yields a token
whose expiry claim is 1800 seconds, that is 30 minutes, later. -/
theorem C10_witness :
    (TokenSchema.mk (create_access_token { sub := some "alice" } (some (30 * 60)) 0 cfg0)
      "bearer").access_token.expOf = some (0 + 30 * 60) := by
  have hok : login { username := "alice", password := "password123" } [user_alice] 0 cfg0 =
      .ok (TokenSchema.mk (create_access_token { sub := some "alice" } (some (30 * 60)) 0
        cfg0) "bearer") := by
    have hv : verify_password "password123" user_alice.hashed_password cfg0 = true :=
      verify_password_self "password123" cfg0
    simp [login, user_alice, hv]
    simp [user_alice] at hv
    simp [hv]
  exact (C10_login_fixed_30_minute_ttl { username := "alice", password := "password123" }
    [user_alice] 0 cfg0).1 _ hok

end HRAuth
